import Mathlib

/-!
Verification of the process-adapter core of `src/src-tauri/src/lib.rs`.

The adapter command `run_seo_check(url, config)` resolves the current working
directory, builds the path `<cwd>/dist/cli.js`, invokes
`node <cli> <url> --json [--config <cfg>]`, captures the process output and
normalizes it into a `SeoCheckResult` record; `get_available_presets()` returns
a fixed list of preset names.

The embedding is shallow: the effectful boundary (current directory lookup,
process execution, the `serde_json::from_str` library call) is a record of
outcomes `Env`, and `runSeoCheck` is the pure function the Rust body computes
over those outcomes.  Paths are byte lists (as on Unix, where `PathBuf` wraps
arbitrary bytes); `String::from_utf8_lossy` is embedded as `utf8Lossy`
following Rust's documented substitution-of-maximal-subparts policy, and
`Path::to_str` as `utf8Decode` (some exactly on valid UTF-8).  The single
panic site (`.unwrap()` on `to_str`) is modelled by an `Option` layer around
the result: `none` is a panic.
-/

namespace E2ESeo

/-- Bytes of an ASCII string literal; used for the fixed path components
`"dist"` and `"cli.js"` and for concrete byte-list inputs in examples.  For an
ASCII string the UTF-8 encoding is the list of code points. -/
def asciiBytes (s : String) : List Nat :=
  s.data.map Char.toNat

/-- Model of `PathBuf::push` of a relative component on Unix: append, inserting
the separator `/` (byte `0x2F`) unless the path is empty or already ends with
a separator. -/
def pathJoin (dir rel : List Nat) : List Nat :=
  if dir = [] then rel
  else if dir.getLast? = some 0x2F then dir ++ rel
  else dir ++ (0x2F :: rel)

/-- Model of `app_dir.join("dist").join("cli.js")` (lib.rs line 20). -/
def cliPathBytes (appDir : List Nat) : List Nat :=
  pathJoin (pathJoin appDir (asciiBytes "dist")) (asciiBytes "cli.js")

/-- UTF-8 continuation byte: `0x80..=0xBF`. -/
def isCont (b : Nat) : Bool :=
  0x80 ≤ b && b ≤ 0xBF

/-- Admissible second byte of a three-byte UTF-8 sequence, by lead byte:
`0xE0` requires `0xA0..=0xBF` (no overlongs), `0xED` requires `0x80..=0x9F`
(no surrogates), the rest require a continuation byte. -/
def valid3Second (b c : Nat) : Bool :=
  if b = 0xE0 then 0xA0 ≤ c && c ≤ 0xBF
  else if b = 0xED then 0x80 ≤ c && c ≤ 0x9F
  else isCont c

/-- Admissible second byte of a four-byte UTF-8 sequence, by lead byte:
`0xF0` requires `0x90..=0xBF` (no overlongs), `0xF4` requires `0x80..=0x8F`
(no code points above `U+10FFFF`), the rest require a continuation byte. -/
def valid4Second (b c : Nat) : Bool :=
  if b = 0xF0 then 0x90 ≤ c && c ≤ 0xBF
  else if b = 0xF4 then 0x80 ≤ c && c ≤ 0x8F
  else isCont c

/-- The replacement character `U+FFFD` emitted by lossy decoding. -/
def repl : Char :=
  Char.ofNat 0xFFFD

/-- Lossy UTF-8 decoding of a byte list, following
`String::from_utf8_lossy`: well-formed sequences decode to their scalar
value; each maximal subpart of an ill-formed sequence (the lead byte together
with the continuation bytes already validated) is replaced by one `U+FFFD`;
an incomplete sequence at the end of input is replaced by one `U+FFFD`.
Total: no byte list fails to decode. -/
def utf8LossyAux : List Nat → List Char
  | [] => []
  | b :: rest =>
    if b ≤ 0x7F then
      Char.ofNat b :: utf8LossyAux rest
    else if 0xC2 ≤ b && b ≤ 0xDF then
      match rest with
      | [] => [repl]
      | c1 :: r1 =>
        if isCont c1 then
          Char.ofNat ((b - 0xC0) * 0x40 + (c1 - 0x80)) :: utf8LossyAux r1
        else
          repl :: utf8LossyAux (c1 :: r1)
    else if 0xE0 ≤ b && b ≤ 0xEF then
      match rest with
      | [] => [repl]
      | c1 :: r1 =>
        if valid3Second b c1 then
          match r1 with
          | [] => [repl]
          | c2 :: r2 =>
            if isCont c2 then
              Char.ofNat ((b - 0xE0) * 0x1000 + (c1 - 0x80) * 0x40 + (c2 - 0x80)) ::
                utf8LossyAux r2
            else
              repl :: utf8LossyAux (c2 :: r2)
        else
          repl :: utf8LossyAux (c1 :: r1)
    else if 0xF0 ≤ b && b ≤ 0xF4 then
      match rest with
      | [] => [repl]
      | c1 :: r1 =>
        if valid4Second b c1 then
          match r1 with
          | [] => [repl]
          | c2 :: r2 =>
            if isCont c2 then
              match r2 with
              | [] => [repl]
              | c3 :: r3 =>
                if isCont c3 then
                  Char.ofNat ((b - 0xF0) * 0x40000 + (c1 - 0x80) * 0x1000 +
                      (c2 - 0x80) * 0x40 + (c3 - 0x80)) :: utf8LossyAux r3
                else
                  repl :: utf8LossyAux (c3 :: r3)
            else
              repl :: utf8LossyAux (c2 :: r2)
        else
          repl :: utf8LossyAux (c1 :: r1)
    else
      repl :: utf8LossyAux rest

/-- `String::from_utf8_lossy` as a string-valued function; see
`utf8LossyAux`. -/
def utf8Lossy (bs : List Nat) : String :=
  String.mk (utf8LossyAux bs)

/-- UTF-8 validity of a byte list, following `str::from_utf8`: every byte
starts or continues a well-formed sequence (no overlongs, no surrogates,
nothing above `U+10FFFF`, no truncated sequence). -/
def utf8Valid : List Nat → Bool
  | [] => true
  | b :: rest =>
    if b ≤ 0x7F then utf8Valid rest
    else if 0xC2 ≤ b && b ≤ 0xDF then
      match rest with
      | c1 :: r1 => isCont c1 && utf8Valid r1
      | [] => false
    else if 0xE0 ≤ b && b ≤ 0xEF then
      match rest with
      | c1 :: c2 :: r2 => valid3Second b c1 && isCont c2 && utf8Valid r2
      | _ => false
    else if 0xF0 ≤ b && b ≤ 0xF4 then
      match rest with
      | c1 :: c2 :: c3 :: r3 => valid4Second b c1 && isCont c2 && isCont c3 && utf8Valid r3
      | _ => false
    else false

/-- Model of `Path::to_str`: `some` exactly when the path bytes are valid
UTF-8, and then the decoded string (on valid input the lossy decoder performs
the ordinary strict decoding, so it is reused). -/
def utf8Decode (bs : List Nat) : Option String :=
  if utf8Valid bs then some (utf8Lossy bs) else none

/-- Model of `std::process::Output` (lib.rs line 32): exit-status success
flag and the captured standard streams as raw bytes. -/
structure ProcOutput where
  statusSuccess : Bool
  stdout : List Nat
  stderr : List Nat
deriving Repr, DecidableEq

/-- The `SeoCheckResult` record of lib.rs lines 4-9, polymorphic in the type
`J` of parsed JSON values (the adapter never inspects the parsed value). -/
structure SeoCheckResult (J : Type) where
  success : Bool
  data : Option J
  error : Option String
deriving Repr, DecidableEq

/-- Outcomes of the effectful boundary that one invocation of
`run_seo_check` observes: the result of `std::env::current_dir()` (error
rendered by its `Display` text), the result of `cmd.output()` for the spawned
program and argument list (spawn error rendered by its `Display` text), and
the behavior of `serde_json::from_str` on a string (parse error rendered by
its `Display` text). -/
structure Env (J : Type) where
  currentDir : Except String (List Nat)
  output : String → List String → Except String ProcOutput
  fromStr : String → Except String J

/-- The argument list built in lib.rs lines 22-29: the CLI script path, the
URL, the fixed `--json` flag, then `--config <cfg>` exactly when a config was
provided. -/
def argsFor (cliStr url : String) (config : Option String) : List String :=
  [cliStr, url, "--json"] ++
    (match config with
     | some cfg => ["--config", cfg]
     | none => [])

/-- The body of `run_seo_check` (lib.rs lines 11-53) over an outcome
environment.  `none` models the panic of `cli_path.to_str().unwrap()` on a
non-UTF-8 path; otherwise the result is the `Result<SeoCheckResult, String>`
the Rust function returns. -/
def runSeoCheck {J : Type} (env : Env J) (url : String) (config : Option String) :
    Option (Except String (SeoCheckResult J)) :=
  match env.currentDir with
  | Except.error e => some (Except.error ("Failed to get current directory: " ++ e))
  | Except.ok appDir =>
    match utf8Decode (cliPathBytes appDir) with
    | none => none
    | some cliStr =>
      match env.output "node" (argsFor cliStr url config) with
      | Except.error e => some (Except.error ("Failed to execute SEO checker: " ++ e))
      | Except.ok out =>
        if out.statusSuccess then
          match env.fromStr (utf8Lossy out.stdout) with
          | Except.error e => some (Except.error ("Failed to parse JSON output: " ++ e))
          | Except.ok data => some (Except.ok ⟨true, some data, none⟩)
        else
          some (Except.ok ⟨false, none, some (utf8Lossy out.stderr)⟩)

/-- The body of `get_available_presets` (lib.rs lines 55-62): a pure constant
with no observable effects. -/
def getAvailablePresets : Except String (List String) :=
  Except.ok ["basic", "advanced", "strict"]

/-- Stub environment: the tool exits non-zero and writes `network timeout` to
standard error. -/
def stubEnvFail : Env Nat where
  currentDir := Except.ok (asciiBytes "/app")
  output := fun _ _ =>
    Except.ok { statusSuccess := false, stdout := [], stderr := asciiBytes "network timeout" }
  fromStr := fun _ => Except.error "unused"

/-- Stub environment: the tool exits zero but prints `not-json`, and the JSON
front end rejects it. -/
def stubEnvBadJson : Env Nat where
  currentDir := Except.ok (asciiBytes "/app")
  output := fun _ _ =>
    Except.ok { statusSuccess := true, stdout := asciiBytes "not-json", stderr := [] }
  fromStr := fun s =>
    if s = "\x7b\"score\":1\x7d" then Except.ok 1 else Except.error "expected value at line 1"

/-- Stub environment: the tool exits zero and prints the JSON document, which
parses to the value `1`. -/
def stubEnvGoodJson : Env Nat where
  currentDir := Except.ok (asciiBytes "/app")
  output := fun _ _ =>
    Except.ok { statusSuccess := true, stdout := asciiBytes "\x7b\"score\":1\x7d", stderr := [] }
  fromStr := fun s =>
    if s = "\x7b\"score\":1\x7d" then Except.ok 1 else Except.error "expected value at line 1"

/-- Stub process behavior: the executable cannot be started. -/
def stubNoSpawn : String → List String → Except String ProcOutput :=
  fun _ _ => Except.error "No such file or directory (os error 2)"

/-- Stub environment: the resolved working directory is the single byte
`0xFF`, which is not valid UTF-8. -/
def stubEnvBadPath : Env Nat where
  currentDir := Except.ok [0xFF]
  output := fun _ _ =>
    Except.ok { statusSuccess := true, stdout := [], stderr := [] }
  fromStr := fun _ => Except.error "unused"

/-- C1: when the external process starts and exits with a non-zero status,
the adapter returns an ordinary `SeoCheckResult` failure whose message is the
captured standard error decoded leniently by `utf8Lossy` (a total function:
invalid byte sequences are replaced, decoding never fails), and never a
call-level infrastructure error. -/
theorem runSeoCheck_failureExit {J : Type} (env : Env J) (url : String)
    (config : Option String) (d : List Nat) (cliStr : String) (out : ProcOutput)
    (hd : env.currentDir = Except.ok d)
    (hv : utf8Decode (cliPathBytes d) = some cliStr)
    (hs : env.output "node" (argsFor cliStr url config) = Except.ok out)
    (hfail : out.statusSuccess = false) :
    runSeoCheck env url config =
      some (Except.ok ⟨false, none, some (utf8Lossy out.stderr)⟩) := by
  simp [runSeoCheck, hd, hv, hs, hfail]

/-- C1 witness: a stub tool that exits 1 and writes `network timeout` to
standard error yields exactly the failure record, never an error. -/
theorem runSeoCheck_failureExit_witness :
    runSeoCheck stubEnvFail "https://example.com" none =
      some (Except.ok ⟨false, none, some "network timeout"⟩) := by
  have h := runSeoCheck_failureExit stubEnvFail "https://example.com" none
    (asciiBytes "/app") "/app/dist/cli.js"
    { statusSuccess := false, stdout := [], stderr := asciiBytes "network timeout" }
    rfl (by decide) rfl rfl
  have e : utf8Lossy (asciiBytes "network timeout") = "network timeout" := by decide
  rw [e] at h
  exact h

/-- C2: when the external process exits with a success status but the
captured standard output does not parse as JSON, the adapter returns a
call-level error (the malformed-output infrastructure error), not any
`SeoCheckResult` value. -/
theorem runSeoCheck_malformedOutput {J : Type} (env : Env J) (url : String)
    (config : Option String) (d : List Nat) (cliStr : String) (out : ProcOutput)
    (e : String)
    (hd : env.currentDir = Except.ok d)
    (hv : utf8Decode (cliPathBytes d) = some cliStr)
    (hs : env.output "node" (argsFor cliStr url config) = Except.ok out)
    (hok : out.statusSuccess = true)
    (hp : env.fromStr (utf8Lossy out.stdout) = Except.error e) :
    runSeoCheck env url config =
      some (Except.error ("Failed to parse JSON output: " ++ e)) := by
  simp [runSeoCheck, hd, hv, hs, hok, hp]

/-- C2 witness: a stub tool that exits 0 but prints `not-json` surfaces the
infrastructure-level parse error, not a `SeoCheckResult`. -/
theorem runSeoCheck_malformedOutput_witness :
    runSeoCheck stubEnvBadJson "https://example.com" none =
      some (Except.error "Failed to parse JSON output: expected value at line 1") := by
  have h := runSeoCheck_malformedOutput stubEnvBadJson "https://example.com" none
    (asciiBytes "/app") "/app/dist/cli.js"
    { statusSuccess := true, stdout := asciiBytes "not-json", stderr := [] }
    "expected value at line 1"
    rfl (by decide) rfl rfl rfl
  exact h

/-- C3: when the external process exits with a success status and the
captured standard output parses as JSON, the adapter returns the success
record whose data field is exactly the parsed value. -/
theorem runSeoCheck_successParse {J : Type} (env : Env J) (url : String)
    (config : Option String) (d : List Nat) (cliStr : String) (out : ProcOutput)
    (v : J)
    (hd : env.currentDir = Except.ok d)
    (hv : utf8Decode (cliPathBytes d) = some cliStr)
    (hs : env.output "node" (argsFor cliStr url config) = Except.ok out)
    (hok : out.statusSuccess = true)
    (hp : env.fromStr (utf8Lossy out.stdout) = Except.ok v) :
    runSeoCheck env url config = some (Except.ok ⟨true, some v, none⟩) := by
  simp [runSeoCheck, hd, hv, hs, hok, hp]

/-- C3 witness: a stub tool that exits 0 and prints the JSON document with
score 1 yields the success record carrying the parsed value. -/
theorem runSeoCheck_successParse_witness :
    runSeoCheck stubEnvGoodJson "https://example.com" none =
      some (Except.ok ⟨true, some 1, none⟩) := by
  have h := runSeoCheck_successParse stubEnvGoodJson "https://example.com" none
    (asciiBytes "/app") "/app/dist/cli.js"
    { statusSuccess := true, stdout := asciiBytes "\x7b\"score\":1\x7d", stderr := [] }
    1
    rfl (by decide) rfl rfl rfl
  exact h

/-- C4: every `SeoCheckResult` record the adapter returns populates exactly
one of the data field and the error field — never both, never neither — and
the success flag is true exactly when the data field is populated. -/
theorem runSeoCheck_result_invariant {J : Type} (env : Env J) (url : String)
    (config : Option String) (r : SeoCheckResult J)
    (h : runSeoCheck env url config = some (Except.ok r)) :
    (r.success = true ∧ (∃ v, r.data = some v) ∧ r.error = none) ∨
    (r.success = false ∧ r.data = none ∧ (∃ m, r.error = some m)) := by
  simp only [runSeoCheck] at h
  rcases hcd : env.currentDir with e | d <;> simp only [hcd] at h
  · simp at h
  · rcases hdec : utf8Decode (cliPathBytes d) with _ | cliStr <;> simp only [hdec] at h
    · simp at h
    · rcases hout : env.output "node" (argsFor cliStr url config) with e | out <;>
        simp only [hout] at h
      · simp at h
      · rcases hss : out.statusSuccess with _ | _ <;> simp [hss] at h
        · right
          rw [← h]
          exact ⟨rfl, rfl, ⟨utf8Lossy out.stderr, rfl⟩⟩
        · rcases hp : env.fromStr (utf8Lossy out.stdout) with e | v <;> simp [hp] at h
          left
          rw [← h]
          exact ⟨rfl, ⟨v, rfl⟩, rfl⟩

/-- C4 witness: the invariant at the concrete non-zero-exit stub outcome. -/
theorem runSeoCheck_result_invariant_witness :
    (SeoCheckResult.success (J := Nat) ⟨false, none, some "network timeout"⟩ = true ∧
      (∃ v, SeoCheckResult.data (J := Nat) ⟨false, none, some "network timeout"⟩ = some v) ∧
      SeoCheckResult.error (J := Nat) ⟨false, none, some "network timeout"⟩ = none) ∨
    (SeoCheckResult.success (J := Nat) ⟨false, none, some "network timeout"⟩ = false ∧
      SeoCheckResult.data (J := Nat) ⟨false, none, some "network timeout"⟩ = none ∧
      (∃ m, SeoCheckResult.error (J := Nat) ⟨false, none, some "network timeout"⟩ = some m)) := by
  apply runSeoCheck_result_invariant stubEnvFail "https://example.com" none
  rfl

/-- C5: the constructed argument list holds the URL as the positional
argument directly followed by the `--json` flag; with a config reference it
is exactly the fixed prefix followed by `--config <cfg>` (verbatim, after
`--json`), and with no config reference it is exactly the fixed prefix, so no
`--config` flag is appended and (when neither the URL nor the CLI path is the
literal string) `--config` does not occur at all. -/
theorem argsFor_spec (cliStr url : String) (config : Option String) :
    (argsFor cliStr url config).get? 1 = some url ∧
    (argsFor cliStr url config).get? 2 = some "--json" ∧
    (∀ cfg, config = some cfg →
      argsFor cliStr url config = [cliStr, url, "--json", "--config", cfg]) ∧
    (config = none → argsFor cliStr url config = [cliStr, url, "--json"]) ∧
    (config = none → url ≠ "--config" → cliStr ≠ "--config" →
      "--config" ∉ argsFor cliStr url config) := by
  rcases config with _ | cfg
  · refine ⟨rfl, rfl, ?_, ?_, ?_⟩
    · intro cfg hcfg
      exact Option.noConfusion hcfg
    · intro _
      rfl
    · intro _ hu hc hmem
      have e : argsFor cliStr url none = [cliStr, url, "--json"] := rfl
      rw [e] at hmem
      simp only [List.mem_cons, List.mem_singleton, List.not_mem_nil, or_false] at hmem
      rcases hmem with h | h | h
      · exact hc h.symm
      · exact hu h.symm
      · exact (by decide : ("--config" : String) ≠ "--json") h
  · refine ⟨rfl, rfl, ?_, ?_, ?_⟩
    · intro cfg2 hcfg
      cases hcfg
      rfl
    · intro hcfg
      exact Option.noConfusion hcfg
    · intro hcfg
      exact Option.noConfusion hcfg

/-- C5 witness: the argument lists at a concrete CLI path and URL, with the
config `strict.json` supplied and with it absent. -/
theorem argsFor_spec_witness :
    argsFor "/app/dist/cli.js" "https://example.com" (some "strict.json") =
      ["/app/dist/cli.js", "https://example.com", "--json", "--config", "strict.json"] ∧
    argsFor "/app/dist/cli.js" "https://example.com" none =
      ["/app/dist/cli.js", "https://example.com", "--json"] := by
  refine ⟨?_, ?_⟩
  · exact (argsFor_spec "/app/dist/cli.js" "https://example.com"
      (some "strict.json")).2.2.1 "strict.json" rfl
  · exact (argsFor_spec "/app/dist/cli.js" "https://example.com" none).2.2.2.1 rfl

/-- C6: when the external process cannot be started, the adapter returns the
spawn infrastructure error; the result is moreover independent of the JSON
front end, so no output parsing can have been involved, and the outcome is an
`Except.error`, distinct from a tool-reported `SeoCheckResult` failure. -/
theorem runSeoCheck_spawnFailed {J : Type}
    (cd : Except String (List Nat))
    (outf : String → List String → Except String ProcOutput)
    (p q : String → Except String J) (url : String) (config : Option String)
    (d : List Nat) (cliStr : String) (e : String)
    (hd : cd = Except.ok d)
    (hv : utf8Decode (cliPathBytes d) = some cliStr)
    (hs : outf "node" (argsFor cliStr url config) = Except.error e) :
    runSeoCheck ⟨cd, outf, p⟩ url config =
      some (Except.error ("Failed to execute SEO checker: " ++ e)) ∧
    runSeoCheck ⟨cd, outf, p⟩ url config = runSeoCheck ⟨cd, outf, q⟩ url config := by
  subst hd
  constructor <;> simp [runSeoCheck, hv, hs]

/-- C6 witness: a stub tool that cannot be executed surfaces the spawn error,
identically under two different JSON front ends. -/
theorem runSeoCheck_spawnFailed_witness :
    runSeoCheck
        (⟨Except.ok (asciiBytes "/app"), stubNoSpawn, fun _ => Except.error "unused"⟩ : Env Nat)
        "https://example.com" none =
      some (Except.error
        "Failed to execute SEO checker: No such file or directory (os error 2)") ∧
    runSeoCheck
        (⟨Except.ok (asciiBytes "/app"), stubNoSpawn, fun _ => Except.error "unused"⟩ : Env Nat)
        "https://example.com" none =
      runSeoCheck
        (⟨Except.ok (asciiBytes "/app"), stubNoSpawn, fun _ => Except.ok 0⟩ : Env Nat)
        "https://example.com" none := by
  have h := runSeoCheck_spawnFailed (J := Nat) (Except.ok (asciiBytes "/app")) stubNoSpawn
    (fun _ => Except.error "unused") (fun _ => Except.ok 0) "https://example.com" none
    (asciiBytes "/app") "/app/dist/cli.js" "No such file or directory (os error 2)"
    rfl (by decide) rfl
  exact h

/-- C7: `get_available_presets` always returns exactly the three presets
`basic`, `advanced`, `strict` in that order; it is a pure constant, so it
never fails (the result is `Except.ok`) and is the same on every call. -/
theorem getAvailablePresets_constant :
    getAvailablePresets = Except.ok ["basic", "advanced", "strict"] :=
  rfl

/-- C8: when the working directory cannot be determined, the adapter fails
with the environment-unavailable infrastructure error carrying the
descriptive message; the statement holds for every process behavior `outf`
and every JSON front end `p`, so no process is spawned and no output is
read. -/
theorem runSeoCheck_envUnavailable {J : Type} (e : String)
    (outf : String → List String → Except String ProcOutput)
    (p : String → Except String J) (url : String) (config : Option String) :
    runSeoCheck ⟨Except.error e, outf, p⟩ url config =
      some (Except.error ("Failed to get current directory: " ++ e)) :=
  rfl

/-- C9: once the working directory resolves, the adapter panics (models as
`none`) exactly when the constructed CLI path is not valid UTF-8 — the
`unwrap` on `to_str` — rather than returning an infrastructure error; so a
panic-free run requires a valid-UTF-8 tool path. -/
theorem runSeoCheck_panicOnInvalidPath {J : Type} (env : Env J) (url : String)
    (config : Option String) (d : List Nat)
    (hd : env.currentDir = Except.ok d) :
    (runSeoCheck env url config = none ↔ utf8Valid (cliPathBytes d) = false) := by
  constructor
  · intro h
    by_contra hne
    rw [Bool.not_eq_false] at hne
    simp [runSeoCheck, utf8Decode, hd, hne] at h
    rcases hout : env.output "node" (argsFor (utf8Lossy (cliPathBytes d)) url config) with
        e | out <;> simp [hout] at h
    rcases hss : out.statusSuccess with _ | _ <;> simp [hss] at h
    rcases hp : env.fromStr (utf8Lossy out.stdout) with e | v <;> simp [hp] at h
  · intro h
    simp [runSeoCheck, utf8Decode, hd, h]

/-- C9 witness: with the working directory resolving to the single non-UTF-8
byte `0xFF`, the constructed path is invalid and the run panics. -/
theorem runSeoCheck_panicOnInvalidPath_witness :
    utf8Valid (cliPathBytes [0xFF]) = false ∧
    runSeoCheck stubEnvBadPath "https://example.com" none = none := by
  refine ⟨by decide, ?_⟩
  exact (runSeoCheck_panicOnInvalidPath stubEnvBadPath "https://example.com" none
    [0xFF] rfl).mpr (by decide)

/-- C10: when the external process exits with a success status, the captured
standard output is decoded by the total lossy decoder `utf8Lossy` (invalid
byte sequences replaced, never a decoding failure) before JSON parsing, so
for every stdout byte sequence the result is fully determined by the JSON
front end on the decoded string: the only output-stage failure mode is the
parse error. -/
theorem runSeoCheck_lenientStdout {J : Type} (env : Env J) (url : String)
    (config : Option String) (d : List Nat) (cliStr : String) (out : ProcOutput)
    (hd : env.currentDir = Except.ok d)
    (hv : utf8Decode (cliPathBytes d) = some cliStr)
    (hs : env.output "node" (argsFor cliStr url config) = Except.ok out)
    (hok : out.statusSuccess = true) :
    runSeoCheck env url config =
      some (match env.fromStr (utf8Lossy out.stdout) with
        | Except.error e => Except.error ("Failed to parse JSON output: " ++ e)
        | Except.ok v => Except.ok ⟨true, some v, none⟩) := by
  simp only [runSeoCheck, hd, hv, hs, hok]
  rcases hp : env.fromStr (utf8Lossy out.stdout) with e | v <;> simp [hp]

/-- C10 witness: at a stub whose stdout is the invalid byte `0xFF` followed
by `not-json`, decoding still succeeds (lossily) and the run ends in the
parse error, the only output-stage failure mode. -/
theorem runSeoCheck_lenientStdout_witness :
    runSeoCheck
        (⟨Except.ok (asciiBytes "/app"),
          fun _ _ => Except.ok
            { statusSuccess := true, stdout := 0xFF :: asciiBytes "not-json", stderr := [] },
          fun _ => Except.error "expected value at line 1"⟩ : Env Nat)
        "https://example.com" none =
      some (match (fun _ => Except.error "expected value at line 1" :
            String → Except String Nat) (utf8Lossy (0xFF :: asciiBytes "not-json")) with
        | Except.error e => Except.error ("Failed to parse JSON output: " ++ e)
        | Except.ok v => Except.ok ⟨true, some v, none⟩) := by
  exact runSeoCheck_lenientStdout
    (⟨Except.ok (asciiBytes "/app"),
      fun _ _ => Except.ok
        { statusSuccess := true, stdout := 0xFF :: asciiBytes "not-json", stderr := [] },
      fun _ => Except.error "expected value at line 1"⟩ : Env Nat)
    "https://example.com" none (asciiBytes "/app") "/app/dist/cli.js"
    { statusSuccess := true, stdout := 0xFF :: asciiBytes "not-json", stderr := [] }
    rfl (by decide) rfl rfl

end E2ESeo
